import Mathlib

/-!
Shallow embedding of the libpag fragment:
  src/base/effects/RadialBlurEffect.cpp, src/base/CameraLayer.cpp,
  src/rendering/drawables/HardwareBufferDrawable.h,
  src/platform/mac/private/GPUDrawable.h
Frames are `Int` (the C++ `Frame` is `int64_t`); collaborators whose code is
outside the given fragment (the base classes, the property implementation,
the Verify macros and the Drawable factory bodies) are modelled from the spec
and marked as such in their doc comments.
-/

/-- Frame, the discrete integer time unit of the animation (`int64_t` in C++). -/
abbrev Frame := Int

/-- Modelled from the spec: `TimeRange` is a half-open frame interval
`[start, end)`; the field `end` is spelled `end_` because `end` is a Lean
keyword.  The definition of `TimeRange` lies outside the given fragment. -/
structure TimeRange where
  start : Int
  end_ : Int
deriving DecidableEq

/-- A range is nonempty when it holds at least one frame. -/
def TimeRange.nonempty (r : TimeRange) : Prop :=
  r.start < r.end_

/-- Frame membership in a half-open range. -/
def TimeRange.holds (r : TimeRange) (f : Int) : Prop :=
  r.start ≤ f ∧ f < r.end_

/-- `r` lies entirely before or entirely after `v` (no shared frame). -/
def TimeRange.avoids (r v : TimeRange) : Prop :=
  r.end_ ≤ v.start ∨ v.end_ ≤ r.start

instance (r : TimeRange) (f : Int) : Decidable (r.holds f) := by
  unfold TimeRange.holds; infer_instance

instance (r v : TimeRange) : Decidable (r.avoids v) := by
  unfold TimeRange.avoids; infer_instance

/-- Modelled from the spec: subtracting one varying range from one candidate
range removes the overlapping sub-portion, splitting the candidate into up to
two remaining sub-intervals; only nonempty pieces survive (§4.2, the
subtraction helper itself is outside the given fragment). -/
def subtractRange (r v : TimeRange) : List TimeRange :=
  let left : TimeRange := ⟨r.start, min r.end_ v.start⟩
  let right : TimeRange := ⟨max r.start v.end_, r.end_⟩
  (if left.start < left.end_ then [left] else []) ++
    (if right.start < right.end_ then [right] else [])

/-- Subtract one varying range from every candidate in the sequence. -/
def subtractFromAll (ranges : List TimeRange) (v : TimeRange) : List TimeRange :=
  ranges.flatMap fun r => subtractRange r v

/-- Subtract each varying range in `vs` from every surviving candidate. -/
def excludeRangesWith (vs : List TimeRange) (ranges : List TimeRange) : List TimeRange :=
  vs.foldl subtractFromAll ranges

/-- Modelled from the spec: an `AnimatableProperty` exposes "value at frame"
and "ranges where the value changes" (§3); the property implementation is
outside the given fragment.  Values are modelled as integers, with `0` the
zero magnitude; `verifyResult` is the outcome of the property node's own
`verify`, which the spec (§4.1) says is callable on any Property node. -/
structure AnimatableProperty where
  valueAt : Frame → Int
  varyingRanges : List TimeRange
  verifyResult : Bool

/-- Modelled from the spec: a property's `excludeVaryingRanges` subtracts each
of its varying ranges from every surviving candidate (§4.2). -/
def AnimatableProperty.excludeVaryingRanges (p : AnimatableProperty)
    (timeRanges : List TimeRange) : List TimeRange :=
  excludeRangesWith p.varyingRanges timeRanges

/-- Modelled from the spec: the observable state of the `Effect` base class
(outside the given fragment): the outcome of its own structural checks and
the varying ranges contributed by its base-class properties. -/
structure EffectBase where
  baseVerify : Bool
  baseVarying : List TimeRange

/-- Modelled from the spec: `Effect::verify` returns its structural check
outcome and emits exactly one diagnostic when it fails (§4.1, §7).  The
second component counts diagnostics emitted during the call. -/
def Effect.verify (e : EffectBase) : Bool × Nat :=
  if e.baseVerify then (true, 0) else (false, 1)

/-- Modelled from the spec: `Effect::excludeVaryingRanges` subtracts the
varying ranges of the base-class properties (§4.2). -/
def Effect.excludeVaryingRanges (e : EffectBase) (timeRanges : List TimeRange) :
    List TimeRange :=
  excludeRangesWith e.baseVarying timeRanges

/-- Modelled from the spec: the observable state of the `Layer` base class
(outside the given fragment), analogous to `EffectBase`. -/
structure LayerBase where
  layerVerify : Bool
  layerVarying : List TimeRange

/-- Modelled from the spec: `Layer::verify`, one diagnostic on failure. -/
def Layer.verify (l : LayerBase) : Bool × Nat :=
  if l.layerVerify then (true, 0) else (false, 1)

/-- Modelled from the spec: `Layer::excludeVaryingRanges` subtracts the
varying ranges of the base-class (structural default) properties. -/
def Layer.excludeVaryingRanges (l : LayerBase) (timeRanges : List TimeRange) :
    List TimeRange :=
  excludeRangesWith l.layerVarying timeRanges

/-- Modelled from the spec: a `CameraOption` sub-object (outside the given
fragment) with its own `verify` outcome and varying ranges. -/
structure CameraOption where
  verifyResult : Bool
  varyingRanges : List TimeRange

/-- Modelled from the spec: `CameraOption::verify`, one diagnostic on
failure (§4.1: one diagnostic at the first node that detects the defect). -/
def CameraOption.verify (co : CameraOption) : Bool × Nat :=
  if co.verifyResult then (true, 0) else (false, 1)

/-- Modelled from the spec: `CameraOption::excludeVaryingRanges`. -/
def CameraOption.excludeVaryingRanges (co : CameraOption)
    (timeRanges : List TimeRange) : List TimeRange :=
  excludeRangesWith co.varyingRanges timeRanges

/-- `Rect`, carried through untouched by the code under study. -/
structure Rect where
  left : Int
  top : Int
  right : Int
  bottom : Int
deriving DecidableEq

/-- `Point`, carried through untouched by the code under study. -/
structure Point where
  x : Int
  y : Int
deriving DecidableEq

/-- `RadialBlurEffect` (src/base/effects/RadialBlurEffect.cpp): four owned
property pointers, each possibly null, plus the base-class state. -/
structure RadialBlurEffect where
  base : EffectBase
  amount : Option AnimatableProperty
  center : Option AnimatableProperty
  mode : Option AnimatableProperty
  antialias : Option AnimatableProperty

/-- `RadialBlurEffect::visibleAt`: reads `amount->getValueAt(layerFrame)` and
compares with 0.  `none` models the null-pointer dereference when `amount`
is null. -/
def RadialBlurEffect.visibleAt (e : RadialBlurEffect) (layerFrame : Frame) :
    Option Bool :=
  match e.amount with
  | none => none
  | some p => some (decide (p.valueAt layerFrame ≠ 0))

/-- `RadialBlurEffect::transformBounds`: the body is empty, the rectangle is
left unchanged. -/
def RadialBlurEffect.transformBounds (_e : RadialBlurEffect) (rect : Rect)
    (_filterCenter : Point) (_layerFrame : Frame) : Rect :=
  rect

/-- `RadialBlurEffect::excludeVaryingRanges`: delegates to
`Effect::excludeVaryingRanges`, then lets `amount`, `center`, `mode`,
`antialias` (in that order) subtract their varying ranges.  `none` models the
null-pointer dereference when any of the four is null. -/
def RadialBlurEffect.excludeVaryingRanges (e : RadialBlurEffect)
    (timeRanges : List TimeRange) : Option (List TimeRange) :=
  match e.amount, e.center, e.mode, e.antialias with
  | some a, some c, some m, some aa =>
      some (aa.excludeVaryingRanges (m.excludeVaryingRanges
        (c.excludeVaryingRanges (a.excludeVaryingRanges
          (Effect.excludeVaryingRanges e.base timeRanges)))))
  | _, _, _, _ => none

/-- `RadialBlurEffect::verify`: delegates to `Effect::verify`; on base failure
calls `VerifyFailed()` (one more diagnostic) and returns false; otherwise
`VerifyAndReturn(amount != nullptr && center != nullptr && mode != nullptr &&
antialias != nullptr)`, which emits one diagnostic when the condition fails.
The second component counts diagnostics emitted during the call. -/
def RadialBlurEffect.verify (e : RadialBlurEffect) : Bool × Nat :=
  let b := Effect.verify e.base
  if b.1 = false then (false, b.2 + 1)
  else if e.amount.isSome && e.center.isSome && e.mode.isSome &&
      e.antialias.isSome then (true, b.2)
  else (false, b.2 + 1)

/-- `CameraLayer` (src/base/CameraLayer.cpp): one owned `cameraOption`
pointer, possibly null, plus the base-class state. -/
structure CameraLayer where
  base : LayerBase
  cameraOption : Option CameraOption

/-- `CameraLayer::excludeVaryingRanges`: delegates to
`Layer::excludeVaryingRanges`, then `cameraOption` subtracts its varying
ranges; `none` models the null-pointer dereference when `cameraOption` is
null. -/
def CameraLayer.excludeVaryingRanges (l : CameraLayer)
    (timeRanges : List TimeRange) : Option (List TimeRange) :=
  match l.cameraOption with
  | none => none
  | some co => some (co.excludeVaryingRanges
      (Layer.excludeVaryingRanges l.base timeRanges))

/-- `CameraLayer::verify`: delegates to `Layer::verify`; on base failure calls
`VerifyFailed()` and returns false; otherwise
`VerifyAndReturn(cameraOption != nullptr && cameraOption->verify())` with
C++ short-circuit evaluation of `&&` (the sub-object's `verify`, and its
diagnostic, happen only when the pointer is non-null). -/
def CameraLayer.verify (l : CameraLayer) : Bool × Nat :=
  let b := Layer.verify l.base
  if b.1 = false then (false, b.2 + 1)
  else
    match l.cameraOption with
    | none => (false, b.2 + 1)
    | some co =>
        let cv := CameraOption.verify co
        if cv.1 then (true, b.2 + cv.2) else (false, b.2 + cv.2 + 1)

/-- Modelled from the spec: a GPU-importable hardware buffer reference,
carrying its declared pixel dimensions (§3). -/
structure HardwareBufferRef where
  width : Int
  height : Int
deriving DecidableEq

/-- A GPU device handle: either one supplied by the embedding application or
one the factory created internally for a buffer (modelled from the spec:
"if `device` is omitted a new device compatible with the buffer is created
internally"). -/
inductive Device where
  | external (id : Nat)
  | forBuffer (buffer : HardwareBufferRef)
deriving DecidableEq

/-- `HardwareBufferDrawable` (src/rendering/drawables/HardwareBufferDrawable.h):
private fields `_width`, `_height`, `hardwareBuffer`, `device`. -/
structure HardwareBufferDrawable where
  _width : Int
  _height : Int
  hardwareBuffer : Option HardwareBufferRef
  device : Option Device
deriving DecidableEq

/-- `HardwareBufferDrawable::width` (header, returns `_width`). -/
def HardwareBufferDrawable.width (d : HardwareBufferDrawable) : Int :=
  d._width

/-- `HardwareBufferDrawable::height` (header, returns `_height`). -/
def HardwareBufferDrawable.height (d : HardwareBufferDrawable) : Int :=
  d._height

/-- `HardwareBufferDrawable::getDevice` (header, returns the `device` field). -/
def HardwareBufferDrawable.getDevice (d : HardwareBufferDrawable) :
    Option Device :=
  d.device

/-- Modelled from the spec: `HardwareBufferDrawable::MakeFrom` (only declared
in the given fragment): fails with a null handle when the buffer is null;
otherwise the drawable's size is fixed from the buffer's declared dimensions
and the supplied device is kept, a buffer-compatible device being created
internally when the device argument is omitted (null). -/
def HardwareBufferDrawable.MakeFrom (hardwareBuffer : Option HardwareBufferRef)
    (device : Option Device) : Option HardwareBufferDrawable :=
  match hardwareBuffer with
  | none => none
  | some buf =>
      some { _width := buf.width, _height := buf.height,
             hardwareBuffer := some buf,
             device := some (device.getD (Device.forBuffer buf)) }

/-- An opaque native platform view handle. -/
structure NSView where
  id : Nat
deriving DecidableEq

/-- `GPUDrawable` (src/platform/mac/private/GPUDrawable.h): private fields
`_width = 0`, `_height = 0`, `view`; the window is omitted (no claim reads
it). -/
structure GPUDrawable where
  _width : Int
  _height : Int
  view : Option NSView
deriving DecidableEq

/-- Modelled from the spec: `GPUDrawable::FromView` (only declared in the
given fragment): fails with a null handle when the view is null; otherwise
builds a drawable bound to the view with the header's zero-initialized size. -/
def GPUDrawable.FromView (view : Option NSView) : Option GPUDrawable :=
  match view with
  | none => none
  | some v => some { _width := 0, _height := 0, view := some v }

/-- A well-formed constant property: value 0 everywhere, no varying ranges. -/
def trivialProp : AnimatableProperty :=
  { valueAt := fun _ => 0, varyingRanges := [], verifyResult := true }

/-- A property whose own verify fails but whose pointer is non-null. -/
def badVerifyProp : AnimatableProperty :=
  { valueAt := fun _ => 1, varyingRanges := [], verifyResult := false }

/-- The scenario amount property of the spec (§8): constant 0 on `[0,100)`,
nonzero on `[100,150)`, hence varying on `[100,150)`. -/
def scenAmount : AnimatableProperty :=
  { valueAt := fun f => if f < 100 then 0 else 1,
    varyingRanges := [⟨100, 150⟩], verifyResult := true }

/-- An Effect base whose structural checks pass and exclude nothing. -/
def okEffectBase : EffectBase :=
  { baseVerify := true, baseVarying := [] }

/-- An Effect base whose structural checks fail. -/
def badEffectBase : EffectBase :=
  { baseVerify := false, baseVarying := [] }

/-- A Layer base whose structural checks pass and exclude nothing. -/
def okLayerBase : LayerBase :=
  { layerVerify := true, layerVarying := [] }

/-- A Layer base whose structural checks fail. -/
def badLayerBase : LayerBase :=
  { layerVerify := false, layerVarying := [] }

/-- A camera option which verifies and excludes nothing. -/
def okCameraOption : CameraOption :=
  { verifyResult := true, varyingRanges := [] }

/-- A camera option whose own verify fails. -/
def badCameraOption : CameraOption :=
  { verifyResult := false, varyingRanges := [] }

/-- A radial blur effect with a null `amount` and a passing base. -/
def rbeNullAmount : RadialBlurEffect :=
  { base := okEffectBase, amount := none, center := some trivialProp,
    mode := some trivialProp, antialias := some trivialProp }

/-- A radial blur effect with all properties non-null, a passing base, but an
`amount` whose own verify fails. -/
def rbeBadPropVerify : RadialBlurEffect :=
  { base := okEffectBase, amount := some badVerifyProp,
    center := some trivialProp, mode := some trivialProp,
    antialias := some trivialProp }

/-- A radial blur effect whose base verify fails, all properties non-null. -/
def rbeBaseFail : RadialBlurEffect :=
  { base := badEffectBase, amount := some trivialProp,
    center := some trivialProp, mode := some trivialProp,
    antialias := some trivialProp }

/-- The spec's scenario radial blur effect (§8). -/
def rbeScene : RadialBlurEffect :=
  { base := okEffectBase, amount := some scenAmount,
    center := some trivialProp, mode := some trivialProp,
    antialias := some trivialProp }

/-- A camera layer with a null `cameraOption` and a passing base. -/
def camNullOption : CameraLayer :=
  { base := okLayerBase, cameraOption := none }

/-- A fully valid camera layer. -/
def camOk : CameraLayer :=
  { base := okLayerBase, cameraOption := some okCameraOption }

/-- A camera layer whose `cameraOption` fails its own verify. -/
def camBadOption : CameraLayer :=
  { base := okLayerBase, cameraOption := some badCameraOption }

/-- A camera layer whose base verify fails. -/
def camBaseFail : CameraLayer :=
  { base := badLayerBase, cameraOption := some okCameraOption }

theorem TimeRange.avoids_of_within {p r v : TimeRange} (h1 : r.start ≤ p.start)
    (h2 : p.end_ ≤ r.end_) (h : r.avoids v) : p.avoids v := by
  rcases h with h | h
  · exact Or.inl (le_trans h2 h)
  · exact Or.inr (le_trans h h1)

theorem TimeRange.not_shared_frame_of_avoids {r v : TimeRange}
    (h : r.avoids v) : ¬ ∃ f, r.holds f ∧ v.holds f := by
  rintro ⟨f, ⟨hr1, hr2⟩, hv1, hv2⟩
  rcases h with h | h
  · exact absurd (lt_of_lt_of_le hr2 h) (not_lt.mpr hv1)
  · exact absurd (lt_of_lt_of_le hv2 h) (not_lt.mpr hr1)

theorem mem_subtractRange {r v p : TimeRange} (hp : p ∈ subtractRange r v) :
    (r.start ≤ p.start ∧ p.end_ ≤ r.end_) ∧ p.nonempty ∧ p.avoids v := by
  unfold subtractRange at hp
  rcases List.mem_append.mp hp with h | h
  · split at h
    · rcases List.mem_singleton.mp h with rfl
      exact ⟨⟨le_refl _, min_le_left _ _⟩, ‹_›, Or.inl (min_le_right _ _)⟩
    · exact absurd h (List.not_mem_nil p)
  · split at h
    · rcases List.mem_singleton.mp h with rfl
      exact ⟨⟨le_max_left _ _, le_refl _⟩, ‹_›, Or.inr (le_max_right _ _)⟩
    · exact absurd h (List.not_mem_nil p)

theorem subtractRange_of_avoids {r v : TimeRange} (hr : r.nonempty)
    (hv : v.start ≤ v.end_) (h : r.avoids v) : subtractRange r v = [r] := by
  obtain ⟨rs, re⟩ := r
  have hr' : rs < re := hr
  unfold subtractRange
  rcases h with h | h
  · have h1 : min re v.start = re := min_eq_left h
    have h2 : ¬ max rs v.end_ < re :=
      not_lt.mpr (le_max_of_le_right (le_trans h hv))
    simp only [h1, if_neg h2, if_pos hr', List.append_nil]
  · have h1 : ¬ rs < min re v.start :=
      not_lt.mpr (min_le_of_right_le (le_trans hv h))
    have h2 : max rs v.end_ = rs := max_eq_left h
    simp only [h2, if_neg h1, if_pos hr', List.nil_append]

theorem mem_subtractFromAll {x : List TimeRange} {v p : TimeRange}
    (hp : p ∈ subtractFromAll x v) :
    (∃ r ∈ x, r.start ≤ p.start ∧ p.end_ ≤ r.end_) ∧ p.nonempty ∧ p.avoids v := by
  unfold subtractFromAll at hp
  rcases List.mem_flatMap.mp hp with ⟨r, hr, hpr⟩
  obtain ⟨hw, hne, hav⟩ := mem_subtractRange hpr
  exact ⟨⟨r, hr, hw⟩, hne, hav⟩

theorem subtractFromAll_avoids_kept {x : List TimeRange} {v w : TimeRange}
    (hx : ∀ r ∈ x, r.avoids w) :
    ∀ p ∈ subtractFromAll x v, p.avoids w := by
  intro p hp
  obtain ⟨⟨r, hr, h1, h2⟩, _, _⟩ := mem_subtractFromAll hp
  exact TimeRange.avoids_of_within h1 h2 (hx r hr)

theorem subtractFromAll_of_avoids {x : List TimeRange} {v : TimeRange}
    (hv : v.start ≤ v.end_) (hx : ∀ r ∈ x, r.nonempty ∧ r.avoids v) :
    subtractFromAll x v = x := by
  induction x with
  | nil => rfl
  | cons r rest ih =>
      have hr := hx r (List.mem_cons_self r rest)
      have step : subtractFromAll (r :: rest) v =
          subtractRange r v ++ subtractFromAll rest v := by
        unfold subtractFromAll
        exact List.flatMap_cons ..
      rw [step, subtractRange_of_avoids hr.1 hv hr.2,
        ih (fun q hq => hx q (List.mem_cons_of_mem r hq))]
      rfl

theorem excludeRangesWith_cons (v : TimeRange) (vs : List TimeRange)
    (x : List TimeRange) :
    excludeRangesWith (v :: vs) x = excludeRangesWith vs (subtractFromAll x v) :=
  rfl

theorem excludeRangesWith_append (xs ys : List TimeRange)
    (z : List TimeRange) :
    excludeRangesWith (xs ++ ys) z = excludeRangesWith ys (excludeRangesWith xs z) :=
  List.foldl_append ..

theorem excludeRangesWith_nonempty {vs x : List TimeRange}
    (hx : ∀ r ∈ x, r.nonempty) :
    ∀ p ∈ excludeRangesWith vs x, p.nonempty := by
  induction vs generalizing x with
  | nil => exact hx
  | cons v vs ih =>
      intro p hp
      rw [excludeRangesWith_cons] at hp
      exact ih (fun q hq => (mem_subtractFromAll hq).2.1) p hp

theorem excludeRangesWith_avoids_kept {vs x : List TimeRange} {w : TimeRange}
    (hx : ∀ r ∈ x, r.avoids w) :
    ∀ p ∈ excludeRangesWith vs x, p.avoids w := by
  induction vs generalizing x with
  | nil => exact hx
  | cons v vs ih =>
      intro p hp
      rw [excludeRangesWith_cons] at hp
      exact ih (subtractFromAll_avoids_kept hx) p hp

theorem excludeRangesWith_avoids {vs x : List TimeRange} {v : TimeRange}
    (hv : v ∈ vs) : ∀ p ∈ excludeRangesWith vs x, p.avoids v := by
  induction vs generalizing x with
  | nil => exact absurd hv (List.not_mem_nil v)
  | cons w vs ih =>
      intro p hp
      rw [excludeRangesWith_cons] at hp
      rcases List.mem_cons.mp hv with rfl | hv
      · exact excludeRangesWith_avoids_kept
          (fun q hq => (mem_subtractFromAll hq).2.2) p hp
      · exact ih hv p hp

theorem excludeRangesWith_of_avoids {vs x : List TimeRange}
    (hvs : ∀ v ∈ vs, v.start ≤ v.end_)
    (hx : ∀ r ∈ x, r.nonempty ∧ ∀ v ∈ vs, r.avoids v) :
    excludeRangesWith vs x = x := by
  induction vs with
  | nil => rfl
  | cons v vs ih =>
      rw [excludeRangesWith_cons,
        subtractFromAll_of_avoids (hvs v (List.mem_cons_self v vs))
          (fun r hr => ⟨(hx r hr).1, (hx r hr).2 v (List.mem_cons_self v vs)⟩)]
      exact ih (fun w hw => hvs w (List.mem_cons_of_mem v hw))
        (fun r hr => ⟨(hx r hr).1,
          fun w hw => (hx r hr).2 w (List.mem_cons_of_mem v hw)⟩)

theorem excludeRangesWith_idem {vs x : List TimeRange}
    (hvs : ∀ v ∈ vs, v.start ≤ v.end_) :
    excludeRangesWith vs (excludeRangesWith vs x) = excludeRangesWith vs x := by
  cases vs with
  | nil => rfl
  | cons v vs =>
      apply excludeRangesWith_of_avoids hvs
      intro r hr
      refine ⟨?_, fun w hw => excludeRangesWith_avoids hw r hr⟩
      rw [excludeRangesWith_cons] at hr
      exact excludeRangesWith_nonempty
        (fun q hq => (mem_subtractFromAll hq).2.1) r hr

theorem rbe_exclude_eq {e : RadialBlurEffect} {a c m aa : AnimatableProperty}
    (ha : e.amount = some a) (hc : e.center = some c) (hm : e.mode = some m)
    (haa : e.antialias = some aa) (timeRanges : List TimeRange) :
    RadialBlurEffect.excludeVaryingRanges e timeRanges =
      some (excludeRangesWith (e.base.baseVarying ++ a.varyingRanges ++
        c.varyingRanges ++ m.varyingRanges ++ aa.varyingRanges) timeRanges) := by
  unfold RadialBlurEffect.excludeVaryingRanges
  rw [ha, hc, hm, haa]
  simp only [AnimatableProperty.excludeVaryingRanges,
    Effect.excludeVaryingRanges, excludeRangesWith_append]

theorem cam_exclude_eq {l : CameraLayer} {co : CameraOption}
    (hco : l.cameraOption = some co) (timeRanges : List TimeRange) :
    CameraLayer.excludeVaryingRanges l timeRanges =
      some (excludeRangesWith (l.base.layerVarying ++ co.varyingRanges)
        timeRanges) := by
  unfold CameraLayer.excludeVaryingRanges
  rw [hco]
  simp only [CameraOption.excludeVaryingRanges, Layer.excludeVaryingRanges,
    excludeRangesWith_append]

theorem rbe_verify_fst (e : RadialBlurEffect) :
    (RadialBlurEffect.verify e).1 =
      (e.base.baseVerify && e.amount.isSome && e.center.isSome &&
        e.mode.isSome && e.antialias.isSome) := by
  cases hb : e.base.baseVerify <;> cases ha : e.amount <;>
    cases hc : e.center <;> cases hm : e.mode <;> cases haa : e.antialias <;>
    simp [RadialBlurEffect.verify, Effect.verify, hb, ha, hc, hm, haa]

theorem cam_verify_fst (l : CameraLayer) :
    (CameraLayer.verify l).1 =
      (l.base.layerVerify &&
        (l.cameraOption.map CameraOption.verifyResult).getD false) := by
  rcases hco : l.cameraOption with _ | co
  · cases hb : l.base.layerVerify <;>
      simp [CameraLayer.verify, Layer.verify, hb, hco]
  · cases hb : l.base.layerVerify <;> cases hcv : co.verifyResult <;>
      simp [CameraLayer.verify, Layer.verify, CameraOption.verify,
        hb, hco, hcv]

/-- Claim C1: for every `RadialBlurEffect`, `verify` returns false whenever one
of `amount`, `center`, `mode`, `antialias` is null, and for every
`CameraLayer`, `verify` returns false whenever `cameraOption` is null; when
the base check passed, the defect is detected at that node itself — the node
emits the single diagnostic and returns false rather than reporting true. -/
theorem C1_verify_false_on_null_subobject :
    (∀ e : RadialBlurEffect,
       (e.amount = none ∨ e.center = none ∨ e.mode = none ∨
         e.antialias = none) →
       (RadialBlurEffect.verify e).1 = false ∧
         (e.base.baseVerify = true →
           RadialBlurEffect.verify e = (false, 1))) ∧
    (∀ l : CameraLayer, l.cameraOption = none →
       (CameraLayer.verify l).1 = false ∧
         (l.base.layerVerify = true → CameraLayer.verify l = (false, 1))) := by
  constructor
  · intro e h
    have hcond : (e.amount.isSome && e.center.isSome && e.mode.isSome &&
        e.antialias.isSome) = false := by
      rcases h with h | h | h | h <;> simp [h]
    cases hb : e.base.baseVerify <;>
      simp [RadialBlurEffect.verify, Effect.verify, hb, hcond]
  · intro l h
    cases hb : l.base.layerVerify <;>
      simp [CameraLayer.verify, Layer.verify, hb, h]

/-- Concrete instantiation of C1: a radial blur effect with a null `amount`
and a camera layer with a null `cameraOption`, both with passing bases. -/
theorem C1_witness :
    ((RadialBlurEffect.verify rbeNullAmount).1 = false ∧
      (rbeNullAmount.base.baseVerify = true →
        RadialBlurEffect.verify rbeNullAmount = (false, 1))) ∧
    ((CameraLayer.verify camNullOption).1 = false ∧
      (camNullOption.base.layerVerify = true →
        CameraLayer.verify camNullOption = (false, 1))) :=
  ⟨C1_verify_false_on_null_subobject.1 rbeNullAmount (Or.inl rfl),
   C1_verify_false_on_null_subobject.2 camNullOption rfl⟩

/-- Counterexample to claim C2: a `RadialBlurEffect` whose base verify passes
and whose four property pointers are all non-null reports `verify() == true`
even though its `amount` sub-object's own `verify` fails —
`RadialBlurEffect::verify` checks only non-nullity and never consults the
properties' own `verify`. -/
theorem C2_counterexample :
    (RadialBlurEffect.verify rbeBadPropVerify).1 = true ∧
    rbeBadPropVerify.amount = some badVerifyProp ∧
    badVerifyProp.verifyResult = false :=
  ⟨rfl, rfl, rfl⟩

/-- Claim C2 as amended: both `verify` overrides first delegate to the base
and check their own fields only when the base passed; `CameraLayer::verify`
returns true iff the base passed, `cameraOption` is non-null and
`cameraOption->verify()` is true, while `RadialBlurEffect::verify` returns
true iff the base passed and all four properties are non-null — the
properties' own `verify` is not consulted. -/
theorem C2_amended_verify_iff :
    (∀ e : RadialBlurEffect,
       (RadialBlurEffect.verify e).1 =
         (e.base.baseVerify && e.amount.isSome && e.center.isSome &&
           e.mode.isSome && e.antialias.isSome)) ∧
    (∀ l : CameraLayer,
       (CameraLayer.verify l).1 =
         (l.base.layerVerify &&
           (l.cameraOption.map CameraOption.verifyResult).getD false)) :=
  ⟨rbe_verify_fst, cam_verify_fst⟩

/-- Counterexample to claim C3: a `RadialBlurEffect` whose base verify fails
emits two diagnostics during a single `verify()` call — one inside the failing
base check, and a second one from the subclass's `VerifyFailed()` before it
propagates false — not exactly one. -/
theorem C3_counterexample :
    RadialBlurEffect.verify rbeBaseFail = (false, 2) :=
  rfl

/-- Claim C3 as amended: each `verify` level that observes the failure emits
its own diagnostic.  A failure first detected at the node itself (base passed,
own check failed) emits exactly one; but when an inner check that has already
reported fails — the base class's verify, or `cameraOption->verify()` — the
enclosing verify emits one more before returning false, for a total of two. -/
theorem C3_amended_diagnostics_per_level :
    (∀ e : RadialBlurEffect, e.base.baseVerify = false →
       (RadialBlurEffect.verify e).2 = 2) ∧
    (∀ e : RadialBlurEffect, e.base.baseVerify = true →
       (RadialBlurEffect.verify e).2 =
         (if (RadialBlurEffect.verify e).1 then 0 else 1)) ∧
    (∀ l : CameraLayer, l.base.layerVerify = false →
       (CameraLayer.verify l).2 = 2) ∧
    (∀ l : CameraLayer, l.base.layerVerify = true → l.cameraOption = none →
       CameraLayer.verify l = (false, 1)) ∧
    (∀ (l : CameraLayer) (co : CameraOption), l.base.layerVerify = true →
       l.cameraOption = some co → co.verifyResult = false →
       CameraLayer.verify l = (false, 2)) := by
  refine ⟨?_, ?_, ?_, ?_, ?_⟩
  · intro e hb
    simp [RadialBlurEffect.verify, Effect.verify, hb]
  · intro e hb
    rcases ha : e.amount <;> rcases hc : e.center <;> rcases hm : e.mode <;>
      rcases haa : e.antialias <;>
      simp [RadialBlurEffect.verify, Effect.verify, hb, ha, hc, hm, haa]
  · intro l hb
    simp [CameraLayer.verify, Layer.verify, hb]
  · intro l hb hco
    simp [CameraLayer.verify, Layer.verify, hb, hco]
  · intro l co hb hco hcv
    simp [CameraLayer.verify, Layer.verify, CameraOption.verify, hb, hco, hcv]

/-- Concrete instantiations for the amended C3: base-failure, own-check
failures and sub-object failure all at explicit nodes. -/
theorem C3_amended_witness :
    (RadialBlurEffect.verify rbeBaseFail).2 = 2 ∧
    (RadialBlurEffect.verify rbeScene).2 =
      (if (RadialBlurEffect.verify rbeScene).1 then 0 else 1) ∧
    (CameraLayer.verify camBaseFail).2 = 2 ∧
    CameraLayer.verify camNullOption = (false, 1) ∧
    CameraLayer.verify camBadOption = (false, 2) :=
  ⟨C3_amended_diagnostics_per_level.1 rbeBaseFail rfl,
   C3_amended_diagnostics_per_level.2.1 rbeScene rfl,
   C3_amended_diagnostics_per_level.2.2.1 camBaseFail rfl,
   C3_amended_diagnostics_per_level.2.2.2.1 camNullOption rfl rfl,
   C3_amended_diagnostics_per_level.2.2.2.2 camBadOption badCameraOption
     rfl rfl rfl⟩

/-- Claim C4: with all required sub-objects non-null,
`RadialBlurEffect::excludeVaryingRanges` first delegates to
`Effect::excludeVaryingRanges` and then subtracts the varying ranges of
`amount`, `center`, `mode`, `antialias` from every surviving candidate, and
`CameraLayer::excludeVaryingRanges` does the same with `Layer` and
`cameraOption`; afterwards no surviving candidate shares a frame with any
varying range of those declared properties. -/
theorem C4_exclude_delegates_then_subtracts :
    (∀ (e : RadialBlurEffect) (a c m aa : AnimatableProperty)
       (timeRanges : List TimeRange),
       e.amount = some a → e.center = some c → e.mode = some m →
       e.antialias = some aa →
       ∃ out, RadialBlurEffect.excludeVaryingRanges e timeRanges = some out ∧
         out = aa.excludeVaryingRanges (m.excludeVaryingRanges
           (c.excludeVaryingRanges (a.excludeVaryingRanges
             (Effect.excludeVaryingRanges e.base timeRanges)))) ∧
         ∀ r ∈ out, ∀ v ∈ a.varyingRanges ++ c.varyingRanges ++
             m.varyingRanges ++ aa.varyingRanges,
           ¬ ∃ f, r.holds f ∧ v.holds f) ∧
    (∀ (l : CameraLayer) (co : CameraOption) (timeRanges : List TimeRange),
       l.cameraOption = some co →
       ∃ out, CameraLayer.excludeVaryingRanges l timeRanges = some out ∧
         out = co.excludeVaryingRanges
           (Layer.excludeVaryingRanges l.base timeRanges) ∧
         ∀ r ∈ out, ∀ v ∈ co.varyingRanges,
           ¬ ∃ f, r.holds f ∧ v.holds f) := by
  constructor
  · intro e a c m aa timeRanges ha hc hm haa
    refine ⟨_, ?_, rfl, ?_⟩
    · unfold RadialBlurEffect.excludeVaryingRanges
      rw [ha, hc, hm, haa]
    · have hcomp : aa.excludeVaryingRanges (m.excludeVaryingRanges
          (c.excludeVaryingRanges (a.excludeVaryingRanges
            (Effect.excludeVaryingRanges e.base timeRanges)))) =
          excludeRangesWith (a.varyingRanges ++ c.varyingRanges ++
            m.varyingRanges ++ aa.varyingRanges)
            (Effect.excludeVaryingRanges e.base timeRanges) := by
        simp only [AnimatableProperty.excludeVaryingRanges,
          excludeRangesWith_append]
      rw [hcomp]
      intro r hr v hv
      exact TimeRange.not_shared_frame_of_avoids
        (excludeRangesWith_avoids hv r hr)
  · intro l co timeRanges hco
    refine ⟨_, ?_, rfl, ?_⟩
    · unfold CameraLayer.excludeVaryingRanges
      rw [hco]
    · intro r hr v hv
      unfold CameraOption.excludeVaryingRanges at hr
      exact TimeRange.not_shared_frame_of_avoids
        (excludeRangesWith_avoids hv r hr)

/-- Concrete instantiation of C4, on the spec's §8 scenario: the candidate
`[0,150)` loses the varying sub-range `[100,150)` of `amount` and only
`[0,100)` survives. -/
theorem C4_witness :
    (∃ out, RadialBlurEffect.excludeVaryingRanges rbeScene [⟨0, 150⟩] =
        some out ∧
      out = trivialProp.excludeVaryingRanges
        (trivialProp.excludeVaryingRanges (trivialProp.excludeVaryingRanges
          (scenAmount.excludeVaryingRanges
            (Effect.excludeVaryingRanges rbeScene.base [⟨0, 150⟩])))) ∧
      ∀ r ∈ out, ∀ v ∈ scenAmount.varyingRanges ++ trivialProp.varyingRanges ++
          trivialProp.varyingRanges ++ trivialProp.varyingRanges,
        ¬ ∃ f, r.holds f ∧ v.holds f) ∧
    RadialBlurEffect.excludeVaryingRanges rbeScene [⟨0, 150⟩] =
      some [⟨0, 100⟩] :=
  ⟨C4_exclude_delegates_then_subtracts.1 rbeScene scenAmount trivialProp
      trivialProp trivialProp [⟨0, 150⟩] rfl rfl rfl rfl,
   by decide⟩

/-- Claim C5: `excludeVaryingRanges` is idempotent.  In this functional
embedding the node is passed unchanged (the C++ methods write only through
the caller's vector, never to the node), and re-running the call on its own
output returns that output unchanged, provided every varying range satisfies
the spec's `TimeRange` invariant `start <= end`. -/
theorem C5_exclude_idempotent :
    (∀ (e : RadialBlurEffect) (a c m aa : AnimatableProperty)
       (timeRanges out : List TimeRange),
       e.amount = some a → e.center = some c → e.mode = some m →
       e.antialias = some aa →
       (∀ v ∈ e.base.baseVarying ++ a.varyingRanges ++ c.varyingRanges ++
           m.varyingRanges ++ aa.varyingRanges, v.start ≤ v.end_) →
       RadialBlurEffect.excludeVaryingRanges e timeRanges = some out →
       RadialBlurEffect.excludeVaryingRanges e out = some out) ∧
    (∀ (l : CameraLayer) (co : CameraOption) (timeRanges out : List TimeRange),
       l.cameraOption = some co →
       (∀ v ∈ l.base.layerVarying ++ co.varyingRanges, v.start ≤ v.end_) →
       CameraLayer.excludeVaryingRanges l timeRanges = some out →
       CameraLayer.excludeVaryingRanges l out = some out) := by
  constructor
  · intro e a c m aa timeRanges out ha hc hm haa hwf hout
    rw [rbe_exclude_eq ha hc hm haa] at hout
    injection hout with hout
    rw [rbe_exclude_eq ha hc hm haa, ← hout,
      excludeRangesWith_idem hwf]
  · intro l co timeRanges out hco hwf hout
    rw [cam_exclude_eq hco] at hout
    injection hout with hout
    rw [cam_exclude_eq hco, ← hout, excludeRangesWith_idem hwf]

/-- Concrete instantiation of C5: re-running the §8 scenario exclusion on its
own output `[0,100)` leaves it unchanged, and similarly for a camera layer. -/
theorem C5_witness :
    RadialBlurEffect.excludeVaryingRanges rbeScene [⟨0, 100⟩] =
      some [⟨0, 100⟩] ∧
    CameraLayer.excludeVaryingRanges camOk [⟨0, 150⟩] = some [⟨0, 150⟩] :=
  ⟨C5_exclude_idempotent.1 rbeScene scenAmount trivialProp trivialProp
      trivialProp [⟨0, 150⟩] [⟨0, 100⟩] rfl rfl rfl rfl (by decide) (by decide),
   C5_exclude_idempotent.2 camOk okCameraOption [⟨0, 150⟩] [⟨0, 150⟩] rfl
      (by decide) (by decide)⟩

/-- Claim C6: for a `RadialBlurEffect` with a non-null `amount`, `visibleAt`
returns a value, and that value is true iff `amount`'s value at the frame is
nonzero. -/
theorem C6_visibleAt_iff_amount_nonzero (e : RadialBlurEffect)
    (p : AnimatableProperty) (f : Frame) (h : e.amount = some p) :
    ∃ b, RadialBlurEffect.visibleAt e f = some b ∧
      (b = true ↔ p.valueAt f ≠ 0) := by
  refine ⟨decide (p.valueAt f ≠ 0), ?_, by simp⟩
  unfold RadialBlurEffect.visibleAt
  rw [h]

/-- Concrete instantiation of C6, the spec's §8 scenario: `amount` is 0 on
`[0,100)` and 1 on `[100,150)`, so `visibleAt 50 = false` and
`visibleAt 120 = true`. -/
theorem C6_witness :
    (∃ b, RadialBlurEffect.visibleAt rbeScene 50 = some b ∧
       (b = true ↔ scenAmount.valueAt 50 ≠ 0)) ∧
    (∃ b, RadialBlurEffect.visibleAt rbeScene 120 = some b ∧
       (b = true ↔ scenAmount.valueAt 120 ≠ 0)) ∧
    RadialBlurEffect.visibleAt rbeScene 50 = some false ∧
    RadialBlurEffect.visibleAt rbeScene 120 = some true :=
  ⟨C6_visibleAt_iff_amount_nonzero rbeScene scenAmount 50 rfl,
   C6_visibleAt_iff_amount_nonzero rbeScene scenAmount 120 rfl,
   by decide, by decide⟩

/-- Claim C7: a `HardwareBufferDrawable` built by `MakeFrom` from a valid
buffer and a caller-supplied device answers `getDevice()` with exactly that
device; the accessor just returns the stored field, so repeated calls cannot
differ. -/
theorem C7_getDevice_returns_supplied_device (buf : HardwareBufferRef)
    (dev : Device) (d : HardwareBufferDrawable)
    (h : HardwareBufferDrawable.MakeFrom (some buf) (some dev) = some d) :
    HardwareBufferDrawable.getDevice d = some dev := by
  unfold HardwareBufferDrawable.MakeFrom at h
  injection h with h
  rw [← h]
  rfl

/-- Concrete instantiation of C7: a 200x100 buffer with an external device. -/
theorem C7_witness :
    HardwareBufferDrawable.getDevice
      ⟨200, 100, some ⟨200, 100⟩, some (Device.external 7)⟩ =
      some (Device.external 7) :=
  C7_getDevice_returns_supplied_device ⟨200, 100⟩ (Device.external 7)
    ⟨200, 100, some ⟨200, 100⟩, some (Device.external 7)⟩ (by decide)

/-- Claim C8: the Drawable factories fail with a null handle on null input:
`GPUDrawable::FromView` on a null view, `HardwareBufferDrawable::MakeFrom` on
a null buffer (whatever the device argument); no partial object is returned. -/
theorem C8_factories_null_input :
    (∀ device : Option Device,
       HardwareBufferDrawable.MakeFrom none device = none) ∧
    GPUDrawable.FromView none = none :=
  ⟨fun _ => rfl, rfl⟩

/-- Claim C9: once `verify()` has returned true, the null-dereference branch
is unreachable: `RadialBlurEffect::visibleAt` and
`RadialBlurEffect::excludeVaryingRanges` read only non-null property
pointers, and `CameraLayer::excludeVaryingRanges` reads a non-null
`cameraOption`. -/
theorem C9_no_null_deref_after_verify :
    (∀ e : RadialBlurEffect, (RadialBlurEffect.verify e).1 = true →
       (∀ f : Frame, RadialBlurEffect.visibleAt e f ≠ none) ∧
       (∀ timeRanges : List TimeRange,
          RadialBlurEffect.excludeVaryingRanges e timeRanges ≠ none)) ∧
    (∀ l : CameraLayer, (CameraLayer.verify l).1 = true →
       ∀ timeRanges : List TimeRange,
         CameraLayer.excludeVaryingRanges l timeRanges ≠ none) := by
  constructor
  · intro e h
    rw [rbe_verify_fst] at h
    simp only [Bool.and_eq_true, Option.isSome_iff_exists] at h
    obtain ⟨⟨⟨⟨-, a, ha⟩, c, hc⟩, m, hm⟩, aa, haa⟩ := h
    constructor
    · intro f
      unfold RadialBlurEffect.visibleAt
      rw [ha]
      exact Option.some_ne_none _
    · intro timeRanges
      unfold RadialBlurEffect.excludeVaryingRanges
      rw [ha, hc, hm, haa]
      exact Option.some_ne_none _
  · intro l h timeRanges
    rw [cam_verify_fst] at h
    simp only [Bool.and_eq_true] at h
    obtain ⟨-, h⟩ := h
    rcases hco : l.cameraOption with _ | co
    · rw [hco] at h
      simp at h
    · unfold CameraLayer.excludeVaryingRanges
      rw [hco]
      exact Option.some_ne_none _

/-- Concrete instantiation of C9: a fully valid radial blur effect and camera
layer. -/
theorem C9_witness :
    ((∀ f : Frame, RadialBlurEffect.visibleAt rbeScene f ≠ none) ∧
      (∀ timeRanges : List TimeRange,
        RadialBlurEffect.excludeVaryingRanges rbeScene timeRanges ≠ none)) ∧
    (∀ timeRanges : List TimeRange,
      CameraLayer.excludeVaryingRanges camOk timeRanges ≠ none) :=
  ⟨C9_no_null_deref_after_verify.1 rbeScene rfl,
   C9_no_null_deref_after_verify.2 camOk rfl⟩

/-- Claim C10: `RadialBlurEffect::transformBounds` never alters the bounds:
for every effect, rectangle, filter center and frame the rectangle comes back
unchanged (the C++ body is empty). -/
theorem C10_transformBounds_identity (e : RadialBlurEffect) (rect : Rect)
    (filterCenter : Point) (layerFrame : Frame) :
    RadialBlurEffect.transformBounds e rect filterCenter layerFrame = rect :=
  rfl
